import Mathlib

/-!
# kitchen_sync endpoint: session loop, MySQL client and PostgreSQL client

A shallow embedding of `src/sync_from.h`, `src/ks_mysql.cpp` and
`src/ks_postgresql.cpp`.

* The session loop `sync_from` reads commands from its input stream, writes values to its
  output stream and calls the database client.  Here the input stream is the list of commands
  that `read_and_unpack` will deliver, and a run yields the ordered list of observable events
  (commands read, client calls, values written, flushes), the way the run ended, and the final
  state of the database client.
* The database servers are state machines supplied as parameters: the model fixes what the
  client code does with the answers, never what the server answers.
-/

set_option autoImplicit false

namespace KitchenSync

/-! ## Data model -/

/-- Modelled from the spec: the scalar value type of `command.h` and the row headers, which are
not among the sources (spec section 3: a tagged union over null, boolean, integer,
floating-point, byte string, text).  A floating-point value is kept as its raw bit pattern. -/
inductive Value where
  | nil
  | boolean (b : Bool)
  | integer (i : Int)
  | floating (bits : Nat)
  | bytes (data : List Nat)
  | text (s : String)
  deriving DecidableEq, Repr

/-- Modelled from the spec: `RowValues`, an ordered sequence of `Value` (spec section 3), used
for the key tuples `first_key` and `last_key`. -/
abbrev RowValues := List Value

/-- Modelled from the spec: `Column` (a name), declared in a header that is not among the
sources. -/
structure Column where
  name : String
  deriving DecidableEq, Repr

/-- Modelled from the spec: the sequence of primary-key column names of a table. -/
abbrev ColumnNames := List String

/-- Modelled from the spec: `Table` (name, ordered columns, ordered primary-key column names),
declared in a header that is not among the sources.  `Table table(name)` builds a table with
no columns and no key columns. -/
structure Table where
  name : String
  columns : List Column := []
  primary_key_columns : ColumnNames := []
  deriving DecidableEq, Repr

/-- Modelled from the spec: `Database`, the ordered sequence of its tables. -/
structure Database where
  tables : List Table := []
  deriving DecidableEq, Repr

/-- Modelled from the spec: one decoded argument of a command (`command.h` is not among the
sources).  An argument is a scalar value, or an array of values for the key tuples of the
`rows` command. -/
inductive Argument where
  | scalar (v : Value)
  | array (vs : RowValues)
  deriving DecidableEq, Repr

/-- Modelled from the spec: `Command` of `command.h`, a name and its ordered arguments. -/
structure Command where
  name : String
  arguments : List Argument
  deriving DecidableEq, Repr

/-- The conversion `as<int>()` of an argument: an integer argument that fits a 32-bit `int`
converts, everything else raises the decoder's type error (`none`). -/
def Argument.as_int : Argument → Option Int
  | .scalar (.integer i) => if -(2 : Int) ^ 31 ≤ i ∧ i < (2 : Int) ^ 31 then some i else none
  | _ => none

/-- The conversion `as<string>()` of an argument: only a text argument converts. -/
def Argument.as_string : Argument → Option String
  | .scalar (.text s) => some s
  | _ => none

/-- The conversion `as<RowValues>()` of an argument: only an array converts. -/
def Argument.as_row_values : Argument → Option RowValues
  | .array vs => some vs
  | _ => none

/-! ## The session loop of `sync_from.h` -/

/-- A value handed to the packer on the output stream.  The byte encoding belongs to the
serialization headers and is not modelled: the output is the sequence of packed values. -/
inductive Packed (ρ : Type) where
  | protocol_version (v : Int)
  | database (db : Database)
  | row (r : ρ)
  deriving DecidableEq, Repr

/-- The observable events of a session, in program order. -/
inductive Event (ρ : Type) where
  /-- The event `read c`: `stream.read_and_unpack(command)` delivered the command `c`. -/
  | read (c : Command)
  /-- The event `schema_call`: `client.database_schema()` was called. -/
  | schema_call
  /-- The event `rows_call`: `client.retrieve_rows(table_name, first_key, last_key, _)` was
  called. -/
  | rows_call (table_name : String) (first_key last_key : RowValues)
  /-- The event `write p`: a value went through the packer to `cout`. -/
  | write (p : Packed ρ)
  /-- The event `flush`: `cout.flush()`. -/
  | flush
  deriving DecidableEq, Repr

/-- How a run of `sync_from` ends. -/
inductive Outcome where
  /-- The function returned (the loop was left through `break`). -/
  | returned
  /-- A `command_error` was thrown with this message. -/
  | command_error (message : String)
  /-- An argument conversion `as<T>()` threw. -/
  | type_error
  /-- The database client threw (a `runtime_error` of the backend). -/
  | client_error (message : String)
  /-- The call `read_and_unpack` found no further command on the input stream. -/
  | input_exhausted
  /-- The command has fewer arguments than the code indexes (`arguments[i]` past the end of
  the vector, which C++ leaves undefined). -/
  | missing_argument
  deriving DecidableEq, Repr

/-- The database client the template `sync_from` is instantiated with: `σ` is the state of the
client (its connection and snapshot), `ρ` its `RowType`.  `database_schema` returns a database
or throws; `retrieve_rows` hands rows to the row packer one by one and then returns (`none`)
or throws (`some message`). -/
structure DatabaseClient (σ ρ : Type) where
  database_schema : σ → Except String Database × σ
  retrieve_rows : σ → String → RowValues → RowValues → (List ρ × Option String) × σ

/-- The result of a run: the events in order, the outcome, the final client state. -/
structure Run (σ ρ : Type) where
  trace : List (Event ρ)
  outcome : Outcome
  state : σ

/-- The run `r` preceded by the events `es`. -/
def Run.after {σ ρ : Type} (es : List (Event ρ)) (r : Run σ ρ) : Run σ ρ :=
  { r with trace := es ++ r.trace }

/-- The constant `PROTOCOL_VERSION_SUPPORTED` of `sync_from`. -/
def PROTOCOL_VERSION_SUPPORTED : Int := 1

/-- Lines 42 to 44 of `sync_from.h`: the three arguments of a `rows` command, converted in
order; the first failing step decides the outcome. -/
def rows_arguments (command : Command) : Except Outcome (String × RowValues × RowValues) :=
  match command.arguments.get? 0 with
  | none => .error .missing_argument
  | some a0 =>
    match a0.as_string with
    | none => .error .type_error
    | some table_name =>
      match command.arguments.get? 1 with
      | none => .error .missing_argument
      | some a1 =>
        match a1.as_row_values with
        | none => .error .type_error
        | some first_key =>
          match command.arguments.get? 2 with
          | none => .error .missing_argument
          | some a2 =>
            match a2.as_row_values with
            | none => .error .type_error
            | some last_key => .ok (table_name, first_key, last_key)

/-- The loop `while (true)` of `sync_from` (lines 33 to 55), on the commands still to come
from the input stream. -/
def session_loop {σ ρ : Type} (client : DatabaseClient σ ρ) : σ → List Command → Run σ ρ
  | s, [] => ⟨[], .input_exhausted, s⟩
  | s, command :: rest =>
    if command.name = "schema" then
      match client.database_schema s with
      | (.error e, s1) => ⟨[.read command, .schema_call], .client_error e, s1⟩
      | (.ok from_database, s1) =>
        Run.after [.read command, .schema_call, .write (.database from_database), .flush]
          (session_loop client s1 rest)
    else if command.name = "rows" then
      match rows_arguments command with
      | .error o => ⟨[.read command], o, s⟩
      | .ok (table_name, first_key, last_key) =>
        match client.retrieve_rows s table_name first_key last_key with
        | ((rows, some e), s1) =>
          ⟨[.read command, .rows_call table_name first_key last_key]
            ++ rows.map (fun r => .write (.row r)), .client_error e, s1⟩
        | ((rows, none), s1) =>
          Run.after ([.read command, .rows_call table_name first_key last_key]
            ++ rows.map (fun r => .write (.row r)) ++ [.flush])
            (session_loop client s1 rest)
    else if command.name = "quit" then
      ⟨[.read command], .returned, s⟩
    else
      ⟨[.read command], .command_error ("Unknown command " ++ command.name), s⟩

/-- The function `sync_from` (lines 13 to 56), on the commands the input stream delivers. -/
def sync_from {σ ρ : Type} (client : DatabaseClient σ ρ) (s : σ) : List Command → Run σ ρ
  | [] => ⟨[], .input_exhausted, s⟩
  | command :: rest =>
    if command.name ≠ "protocol" then
      ⟨[.read command],
        .command_error ("Expected a protocol command before " ++ command.name), s⟩
    else
      match command.arguments.get? 0 with
      | none => ⟨[.read command], .missing_argument, s⟩
      | some a0 =>
        match a0.as_int with
        | none => ⟨[.read command], .type_error, s⟩
        | some v =>
          let protocol := min PROTOCOL_VERSION_SUPPORTED v
          Run.after [.read command, .write (.protocol_version protocol), .flush]
            (session_loop client s rest)

/-! ## The MySQL client of `ks_mysql.cpp` -/

namespace MySQL

/-- The constant `MYSQL_5_6_5`. -/
def MYSQL_5_6_5 : Nat := 50605

/-- The MySQL client library and the server behind it, as far as `ks_mysql.cpp` uses them.
`σ` is the state of the `MYSQL` handle.  `mysql_real_connect` gets host, username, password,
database name, port and socket (`none` for a null pointer) and answers `true` when the
connection was made; `mysql_query` answers `true` for a non-zero return, that is a failure. -/
structure Library (σ : Type) where
  mysql_real_connect :
    σ → Option String → Option String → Option String → Option String → Int → Option String
      → Bool × σ
  mysql_query : σ → String → Bool × σ
  mysql_error : σ → String
  mysql_get_server_version : σ → Nat

/-- What the client does, in program order. -/
inductive Action where
  /-- The action `connect port socket`: `mysql_real_connect` was called with them. -/
  | connect (port : Int) (socket : Option String)
  /-- The action `execute_call sql`: `MySQLClient::execute` was entered with argument `sql`. -/
  | execute_call (sql : String)
  /-- The action `submitted sql`: the statement `sql` was given to `mysql_query`. -/
  | submitted (sql : String)
  deriving DecidableEq, Repr

/-- The result of a piece of client code: its actions, `none` for a normal return or the
message of the `runtime_error` thrown, and the state of the handle. -/
structure Result (σ : Type) where
  actions : List Action
  error : Option String
  handle : σ

/-- The C test `isspace` in the C locale. -/
def isspace (c : Char) : Bool :=
  c = ' ' || c = '\t' || c = '\n' || c = '\x0b' || c = '\x0c' || c = '\r'

/-- The test `c >= '0' && c <= '9'`. -/
def is_digit (c : Char) : Bool :=
  decide ('0'.toNat ≤ c.toNat) && decide (c.toNat ≤ '9'.toNat)

/-- The number written by a run of decimal digits, most significant first. -/
def digits_value (ds : List Char) : Nat :=
  ds.foldl (fun acc d => acc * 10 + (d.toNat - '0'.toNat)) 0

/-- A C `long` converted to `int`: reduction modulo `2^32` into the signed range. -/
def to_int32 (n : Int) : Int :=
  (n + 2 ^ 31) % 2 ^ 32 - 2 ^ 31

/-- The optional sign in front of a number: whether it is a minus, and what follows it. -/
def optional_sign (cs : List Char) : Bool × List Char :=
  match cs with
  | '-' :: t => (true, t)
  | '+' :: t => (false, t)
  | _ => (false, cs)

/-- The C library function `atoi`, as `(int) strtol(s, NULL, 10)` with a 64-bit `long`: skip
white space, take an optional sign, read the leading decimal digits, clamp to the range of
`long`, convert to `int`. -/
def atoi (s : String) : Int :=
  let signed := optional_sign (s.toList.dropWhile isspace)
  let n : Int := (digits_value (signed.2.takeWhile is_digit) : Nat)
  let l : Int := if signed.1 then max (-(2 : Int) ^ 63) (-n) else min ((2 : Int) ^ 63 - 1) n
  to_int32 l

/-- Lines 36 to 44 of `ks_mysql.cpp`: the port and the socket the constructor gives to
`mysql_real_connect`, from the argument `database_port` (`none` for a null pointer).  The
test `*database_port >= '0' && *database_port <= '9'` reads the first character of the
string; for the empty string that is the terminating NUL. -/
def port_and_socket (database_port : Option String) : Int × Option String :=
  match database_port with
  | none => (0, none)
  | some p =>
    match p.toList with
    | c :: _ => if is_digit c then (atoi p, none) else (0, some p)
    | [] => (0, some p)

/-- The test of line 39 as a function of the string: whether its first character is a decimal
digit (the empty string has the terminating NUL there, which is none). -/
def first_character_is_digit (p : String) : Bool :=
  match p.toList with
  | c :: _ => is_digit c
  | [] => false

/-- The method `MySQLClient::execute` (lines 61 to 65). -/
def execute {σ : Type} (lib : Library σ) (mysql : σ) (sql : String) : Result σ :=
  match lib.mysql_query mysql "BEGIN" with
  | (true, m1) => ⟨[.execute_call sql, .submitted "BEGIN"], some (lib.mysql_error m1), m1⟩
  | (false, m1) => ⟨[.execute_call sql, .submitted "BEGIN"], none, m1⟩

/-- The second argument expression of `start_transaction` (line 69), on the flag and the
version number the server reports. -/
def start_statement (readonly : Bool) (server_version : Nat) : String :=
  if readonly && decide (server_version ≥ MYSQL_5_6_5) then "START TRANSACTION READ ONLY"
  else "START TRANSACTION"

/-- The method `MySQLClient::start_transaction` (lines 67 to 70). -/
def start_transaction {σ : Type} (lib : Library σ) (mysql : σ) (readonly : Bool) : Result σ :=
  let r1 := execute lib mysql "SET SESSION TRANSACTION ISOLATION LEVEL REPEATABLE READ"
  match r1.error with
  | some e => ⟨r1.actions, some e, r1.handle⟩
  | none =>
    let r2 := execute lib r1.handle
      (start_statement readonly (lib.mysql_get_server_version r1.handle))
    ⟨r1.actions ++ r2.actions, r2.error, r2.handle⟩

/-- The constructor `MySQLClient::MySQLClient` (lines 27 to 55), on the handle as left by
`mysql_init` and `mysql_options`. -/
def MySQLClient {σ : Type} (lib : Library σ) (mysql : σ)
    (database_host database_port database_name database_username database_password :
      Option String) (readonly : Bool) : Result σ :=
  let ps := port_and_socket database_port
  match lib.mysql_real_connect mysql database_host database_username database_password
      database_name ps.1 ps.2 with
  | (false, m1) => ⟨[.connect ps.1 ps.2], some (lib.mysql_error m1), m1⟩
  | (true, m1) =>
    let r := start_transaction lib m1 readonly
    ⟨.connect ps.1 ps.2 :: r.actions, r.error, r.handle⟩

/-- The arguments with which `execute` was entered, in order. -/
def execute_arguments : List Action → List String
  | [] => []
  | .execute_call sql :: rest => sql :: execute_arguments rest
  | _ :: rest => execute_arguments rest

/-- The statements given to the server, in order. -/
def submitted_statements : List Action → List String
  | [] => []
  | .submitted sql :: rest => sql :: submitted_statements rest
  | _ :: rest => submitted_statements rest

end MySQL

/-! ## The PostgreSQL client of `ks_postgresql.cpp` -/

namespace PostgreSQL

/-- The result statuses of libpq (`ExecStatusType`). -/
inductive ExecStatusType where
  | PGRES_EMPTY_QUERY
  | PGRES_COMMAND_OK
  | PGRES_TUPLES_OK
  | PGRES_COPY_OUT
  | PGRES_COPY_IN
  | PGRES_BAD_RESPONSE
  | PGRES_NONFATAL_ERROR
  | PGRES_FATAL_ERROR
  deriving DecidableEq, Repr

/-- A `PGresult` of libpq: its status, its number of fields, and its tuples, each the list of
the text values of its fields. -/
structure PGresult where
  status : ExecStatusType
  nfields : Nat
  tuples : List (List String)
  deriving DecidableEq, Repr

/-- The function `PQresultStatus`; libpq answers `PGRES_FATAL_ERROR` for a null result. -/
def PQresultStatus : Option PGresult → ExecStatusType
  | none => .PGRES_FATAL_ERROR
  | some r => r.status

/-- The function `PQntuples`; 0 for a null result. -/
def PQntuples : Option PGresult → Nat
  | none => 0
  | some r => r.tuples.length

/-- The function `PQnfields`; 0 for a null result. -/
def PQnfields : Option PGresult → Nat
  | none => 0
  | some r => r.nfields

/-- The bytes `PQgetvalue` and `PQgetlength` give for a field, as a string; the empty string
where the result has no such field. -/
def PQgetvalue (res : Option PGresult) (row_number column_number : Nat) : String :=
  match res with
  | none => ""
  | some r =>
    match r.tuples.get? row_number with
    | none => ""
    | some tuple => tuple.getD column_number ""

/-- The libpq connection and the server behind it, as far as the client uses them: `σ` is the
state of the connection, `PQexec` and `PQexecParams` answer a result (`none` for a null
pointer) and move the connection on. -/
structure Connection (σ : Type) where
  PQexec : σ → String → Option PGresult × σ
  PQexecParams : σ → String → Option PGresult × σ
  PQerrorMessage : σ → String

/-- The class `PostgreSQLRes` (lines 11 to 37). -/
structure PostgreSQLRes where
  res : Option PGresult
  n_tuples : Nat
  n_columns : Nat
  deriving DecidableEq, Repr

/-- The constructor `PostgreSQLRes::PostgreSQLRes` (lines 27 to 31). -/
def PostgreSQLRes.make (res : Option PGresult) : PostgreSQLRes :=
  { res := res, n_tuples := PQntuples res, n_columns := PQnfields res }

/-- The method `PostgreSQLRes::status`. -/
def PostgreSQLRes.status (r : PostgreSQLRes) : ExecStatusType :=
  PQresultStatus r.res

/-- The class `PostgreSQLRow` (lines 40 to 54): a result and a row number. -/
structure PostgreSQLRow where
  res : PostgreSQLRes
  row_number : Nat
  deriving DecidableEq, Repr

/-- The method `PostgreSQLRow::string_at`. -/
def PostgreSQLRow.string_at (row : PostgreSQLRow) (column_number : Nat) : String :=
  PQgetvalue row.res.res row.row_number column_number

/-- The loop of `PostgreSQLClient::query` (lines 90 to 93), from `row_number` on.  The row
handler works on its own state `τ` and, as the table lister does, on the connection; it
returns or throws. -/
def query_rows {σ τ : Type} (row_handler : PostgreSQLRow → τ → σ → Except String (τ × σ))
    (res : PostgreSQLRes) (row_number : Nat) (t : τ) (conn : σ) : Except String (τ × σ) :=
  if row_number < res.n_tuples then
    match row_handler ⟨res, row_number⟩ t conn with
    | .error e => .error e
    | .ok (t1, conn1) => query_rows row_handler res (row_number + 1) t1 conn1
  else
    .ok (t, conn)
termination_by res.n_tuples - row_number

/-- The method `PostgreSQLClient::query` (lines 82 to 94). -/
def query {σ τ : Type} (pg : Connection σ) (sql : String)
    (row_handler : PostgreSQLRow → τ → σ → Except String (τ × σ)) (t : τ) (conn : σ) :
    Except String (τ × σ) :=
  match pg.PQexecParams conn sql with
  | (r, conn1) =>
    let res := PostgreSQLRes.make r
    if res.status ≠ .PGRES_TUPLES_OK then
      .error (pg.PQerrorMessage conn1)
    else
      query_rows row_handler res 0 t conn1

/-- The method `PostgreSQLClient::execute` (lines 133 to 139). -/
def execute {σ : Type} (pg : Connection σ) (sql : String) (conn : σ) : Except String σ :=
  match pg.PQexec conn sql with
  | (r, conn1) =>
    if (PostgreSQLRes.make r).status ≠ .PGRES_COMMAND_OK then
      .error (pg.PQerrorMessage conn1)
    else
      .ok conn1

/-- The method `PostgreSQLClient::start_transaction` (lines 141 to 144). -/
def start_transaction {σ : Type} (pg : Connection σ) (readonly : Bool) (conn : σ) :
    Except String σ :=
  match execute pg "SET SESSION TRANSACTION ISOLATION LEVEL REPEATABLE READ" conn with
  | .error e => .error e
  | .ok conn1 =>
    execute pg (if readonly then "START TRANSACTION READ ONLY" else "START TRANSACTION") conn1

/-- The call operator of `PostgreSQLColumnLister` (lines 150 to 153). -/
def PostgreSQLColumnLister {σ : Type} (row : PostgreSQLRow) (table : Table) (conn : σ) :
    Except String (Table × σ) :=
  let column : Column := ⟨row.string_at 0⟩
  .ok ({ table with columns := table.columns ++ [column] }, conn)

/-- The call operator of `PostgreSQLKeyLister` (lines 163 to 166). -/
def PostgreSQLKeyLister {σ : Type} (row : PostgreSQLRow) (table : Table) (conn : σ) :
    Except String (Table × σ) :=
  let column_name := row.string_at 0
  .ok ({ table with primary_key_columns := table.primary_key_columns ++ [column_name] }, conn)

/-- The statement the table lister sends for the columns of a table (lines 180 to 186). -/
def columns_sql (table_name : String) : String :=
  "SELECT attname " ++
    "FROM pg_attribute, pg_class " ++
   "WHERE attrelid = pg_class.oid AND " ++
         "attnum > 0 AND " ++
         "NOT attisdropped AND " ++
         "relname = '" ++ table_name ++ "' " ++
   "ORDER BY attnum"

/-- The statement the table lister sends for the key columns of a table (lines 191 to
197). -/
def key_sql (table_name : String) : String :=
  "SELECT column_name " ++
    "FROM information_schema.table_constraints, " ++
         "information_schema.key_column_usage " ++
   "WHERE information_schema.table_constraints.table_name = '" ++ table_name ++ "' AND " ++
         "information_schema.key_column_usage.table_name = information_schema.table_constraints.table_name AND " ++
         "constraint_type = 'PRIMARY KEY' " ++
   "ORDER BY ordinal_position"

/-- The statement of `populate_database_schema` (lines 211 to 213). -/
def tables_sql : String :=
  "SELECT tablename " ++
    "FROM pg_tables " ++
   "WHERE schemaname = ANY (current_schemas(false))"

/-- The member `table_key_columns`, a `map<string, ColumnNames>`, by what a lookup finds. -/
abbrev KeyColumns := String → Option ColumnNames

/-- The assignment `table_key_columns[name] = columns`. -/
def KeyColumns.assign (m : KeyColumns) (name : String) (columns : ColumnNames) : KeyColumns :=
  fun k => if k = name then some columns else m k

/-- The members `database` and `table_key_columns` that the table lister fills. -/
structure Schema where
  database : Database
  table_key_columns : KeyColumns

/-- The call operator of `PostgreSQLTableLister` (lines 175 to 202). -/
def PostgreSQLTableLister {σ : Type} (pg : Connection σ) (row : PostgreSQLRow)
    (schema : Schema) (conn : σ) : Except String (Schema × σ) :=
  let table : Table := { name := row.string_at 0 }
  match query pg (columns_sql (row.string_at 0)) PostgreSQLColumnLister table conn with
  | .error e => .error e
  | .ok (table1, conn1) =>
    match query pg (key_sql (row.string_at 0)) PostgreSQLKeyLister table1 conn1 with
    | .error e => .error e
    | .ok (table2, conn2) =>
      .ok ({ database := { tables := schema.database.tables ++ [table2] },
             table_key_columns :=
               schema.table_key_columns.assign table2.name table2.primary_key_columns },
           conn2)

/-- The method `PostgreSQLClient::populate_database_schema` (lines 209 to 215), on the members
`database` and `table_key_columns` as they are when it is called. -/
def populate_database_schema {σ : Type} (pg : Connection σ) (schema : Schema) (conn : σ) :
    Except String (Schema × σ) :=
  query pg tables_sql (PostgreSQLTableLister pg) schema conn

/-- The members `database` and `table_key_columns` of a client under construction, before
`populate_database_schema` runs: no table, no key. -/
def Schema.empty : Schema :=
  { database := { tables := [] }, table_key_columns := fun _ => none }

/-- What the claims say of `query`: the row handler called on the rows with the given numbers,
one after the other in the order of the list, each call starting from what the call before
left, and stopping at the first call that throws. -/
def invoke_in_order {σ τ : Type} (row_handler : PostgreSQLRow → τ → σ → Except String (τ × σ))
    (res : PostgreSQLRes) : List Nat → τ → σ → Except String (τ × σ)
  | [], t, conn => .ok (t, conn)
  | row_number :: later, t, conn =>
    match row_handler ⟨res, row_number⟩ t conn with
    | .error e => .error e
    | .ok (t1, conn1) => invoke_in_order row_handler res later t1 conn1

/-- A row handler that only notes the number of the row it is called on, at the end of the
list of the numbers noted so far. -/
def record_row_number {σ : Type} (row : PostgreSQLRow) (noted : List Nat) (conn : σ) :
    Except String (List Nat × σ) :=
  .ok (noted ++ [row.row_number], conn)

/-- The first field of a tuple, as `string_at(0)` reads it. -/
def first_field (tuple : List String) : String :=
  tuple.getD 0 ""

/-- The table `table` is what the server returned for the table name `name` on the connection
in state `conn_a`: the column statement for `name`, sent in state `conn_a`, had a
`PGRES_TUPLES_OK` result and left the connection in a state in which the key statement for
`name` had a `PGRES_TUPLES_OK` result and left the connection in state `conn_c`; the table
has the name `name`, its columns are the first fields of the tuples of the first result, in
the order of the result, and its key columns are the first fields of the tuples of the second
result, in the order of the result. -/
def table_from {σ : Type} (pg : Connection σ) (conn_a : σ) (name : String) (table : Table)
    (conn_c : σ) : Prop :=
  ∃ (columns_res : PGresult) (conn_b : σ) (key_res : PGresult),
    pg.PQexecParams conn_a (columns_sql name) = (some columns_res, conn_b) ∧
    columns_res.status = .PGRES_TUPLES_OK ∧
    pg.PQexecParams conn_b (key_sql name) = (some key_res, conn_c) ∧
    key_res.status = .PGRES_TUPLES_OK ∧
    table.name = name ∧
    table.columns = columns_res.tuples.map (fun tuple => Column.mk (first_field tuple)) ∧
    table.primary_key_columns = key_res.tuples.map first_field

/-- The tables are, one for each name and in the order of the names, what the server returned
for that name, the statements for the first name sent in state `conn`, those for each later
name in the state the statements for the name before left, the last leaving state `conn1`. -/
def tables_from {σ : Type} (pg : Connection σ) : σ → List String → List Table → σ → Prop
  | conn, [], [], conn1 => conn1 = conn
  | conn, name :: names, table :: tables, conn1 =>
    ∃ conn_c, table_from pg conn name table conn_c ∧ tables_from pg conn_c names tables conn1
  | _, _, _, _ => False

/-- The table `table` is what the server returned for the table name `name` in some state of
the connection. -/
def table_as_returned {σ : Type} (pg : Connection σ) (name : String) (table : Table) : Prop :=
  ∃ conn_a conn_c, table_from pg conn_a name table conn_c

end PostgreSQL

/-! ## Sample inputs -/

namespace Samples

/-- A database with one table. -/
def database : Database :=
  { tables := [{ name := "users", columns := [⟨"id"⟩, ⟨"name"⟩],
                 primary_key_columns := ["id"] }] }

/-- A database client whose state counts the calls made to it; it knows one table with two
rows and throws for every other table name. -/
def client : DatabaseClient Nat (List String) where
  database_schema := fun s => (.ok database, s + 1)
  retrieve_rows := fun s table_name _ _ =>
    if table_name = "users" then (([["1", "ann"], ["2", "bob"]], none), s + 1)
    else (([], some "no such table"), s + 1)

/-- The command `protocol` proposing version `v`. -/
def protocol (v : Int) : Command := ⟨"protocol", [.scalar (.integer v)]⟩

/-- The command `schema`. -/
def schema : Command := ⟨"schema", []⟩

/-- The command `rows` for the table `users` with both keys empty. -/
def rows : Command := ⟨"rows", [.scalar (.text "users"), .array [], .array []]⟩

/-- The command `quit`. -/
def quit : Command := ⟨"quit", []⟩

/-- A MySQL server of the given version: the state of the handle is the list of statements
received so far, every statement succeeds, and every connection attempt succeeds. -/
def mysql (version : Nat) : MySQL.Library (List String) where
  mysql_real_connect := fun m _ _ _ _ _ _ => (true, m)
  mysql_query := fun m sql => (false, m ++ [sql])
  mysql_error := fun _ => "error"
  mysql_get_server_version := fun _ => version

/-- A result with status `PGRES_TUPLES_OK` and one field, with the given values. -/
def one_column (values : List String) : PostgreSQL.PGresult :=
  { status := .PGRES_TUPLES_OK, nfields := 1, tuples := values.map (fun v => [v]) }

/-- A PostgreSQL server whose catalog lists the table `users` twice and the table `orders`
between; the state of the connection counts the statements received. -/
def postgresql : PostgreSQL.Connection Nat where
  PQexec := fun n _ => (some ⟨.PGRES_COMMAND_OK, 0, []⟩, n + 1)
  PQexecParams := fun n sql =>
    if sql = PostgreSQL.tables_sql then (some (one_column ["users", "orders", "users"]), n + 1)
    else if sql = PostgreSQL.columns_sql "users" then (some (one_column ["id", "name"]), n + 1)
    else if sql = PostgreSQL.key_sql "users" then (some (one_column ["id"]), n + 1)
    else if sql = PostgreSQL.columns_sql "orders" then
      (some (one_column ["user_id", "item", "price"]), n + 1)
    else if sql = PostgreSQL.key_sql "orders" then (some (one_column ["user_id", "item"]), n + 1)
    else (some ⟨.PGRES_FATAL_ERROR, 0, []⟩, n + 1)
  PQerrorMessage := fun _ => "error"

end Samples

/-! ## Properties of the session loop -/

theorem Run.after_nil {σ ρ : Type} (r : Run σ ρ) : Run.after [] r = r := by
  cases r; rfl

theorem Run.after_after {σ ρ : Type} (es fs : List (Event ρ)) (r : Run σ ρ) :
    Run.after es (Run.after fs r) = Run.after (es ++ fs) r := by
  cases r; simp [Run.after]

section steps

variable {σ ρ : Type} (client : DatabaseClient σ ρ) (s s1 : σ) (c : Command)
  (l : List Command)

theorem session_loop_nil : session_loop client s [] = ⟨[], .input_exhausted, s⟩ := by
  rw [session_loop]

theorem session_loop_schema_ok (db : Database) (h : c.name = "schema")
    (hc : client.database_schema s = (.ok db, s1)) :
    session_loop client s (c :: l) =
      Run.after [.read c, .schema_call, .write (.database db), .flush]
        (session_loop client s1 l) := by
  rw [session_loop]; simp only [h, if_true, hc]

theorem session_loop_schema_error (e : String) (h : c.name = "schema")
    (hc : client.database_schema s = (.error e, s1)) :
    session_loop client s (c :: l) = ⟨[.read c, .schema_call], .client_error e, s1⟩ := by
  rw [session_loop]; simp only [h, if_true, hc]

theorem session_loop_rows_arguments (o : Outcome) (h : c.name = "rows")
    (ha : rows_arguments c = .error o) :
    session_loop client s (c :: l) = ⟨[.read c], o, s⟩ := by
  rw [session_loop]; simp [h, ha]

theorem session_loop_rows_ok (table_name : String) (first_key last_key : RowValues)
    (rows : List ρ) (h : c.name = "rows")
    (ha : rows_arguments c = .ok (table_name, first_key, last_key))
    (hc : client.retrieve_rows s table_name first_key last_key = ((rows, none), s1)) :
    session_loop client s (c :: l) =
      Run.after ([.read c, .rows_call table_name first_key last_key]
          ++ rows.map (fun r => .write (.row r)) ++ [.flush])
        (session_loop client s1 l) := by
  rw [session_loop]; simp [h, ha, hc]

theorem session_loop_rows_error (table_name : String) (first_key last_key : RowValues)
    (rows : List ρ) (e : String) (h : c.name = "rows")
    (ha : rows_arguments c = .ok (table_name, first_key, last_key))
    (hc : client.retrieve_rows s table_name first_key last_key = ((rows, some e), s1)) :
    session_loop client s (c :: l) =
      ⟨[.read c, .rows_call table_name first_key last_key]
          ++ rows.map (fun r => .write (.row r)), .client_error e, s1⟩ := by
  rw [session_loop]; simp [h, ha, hc]

theorem session_loop_quit (h : c.name = "quit") :
    session_loop client s (c :: l) = ⟨[.read c], .returned, s⟩ := by
  rw [session_loop]; simp [h]

theorem session_loop_unknown (h1 : c.name ≠ "schema") (h2 : c.name ≠ "rows")
    (h3 : c.name ≠ "quit") :
    session_loop client s (c :: l) =
      ⟨[.read c], .command_error ("Unknown command " ++ c.name), s⟩ := by
  rw [session_loop]; simp [h1, h2, h3]

end steps

/-- A failed conversion of the arguments of `rows` is a missing argument or a type error. -/
theorem rows_arguments_error (c : Command) (o : Outcome) (h : rows_arguments c = .error o) :
    o = .missing_argument ∨ o = .type_error := by
  unfold rows_arguments at h
  repeat' split at h
  all_goals first
    | (cases h; simp)
    | simp at h

/-- A loop that used up the commands `pre` without leaving goes on with what follows them. -/
theorem session_loop_append {σ ρ : Type} (client : DatabaseClient σ ρ) :
    ∀ (pre : List Command) (s : σ) (rest : List Command),
      (session_loop client s pre).outcome = .input_exhausted →
      session_loop client s (pre ++ rest) =
        Run.after (session_loop client s pre).trace
          (session_loop client (session_loop client s pre).state rest) := by
  intro pre
  induction pre with
  | nil =>
    intro s rest _
    simp [session_loop_nil, Run.after_nil]
  | cons c pre ih =>
    intro s rest h
    simp only [List.cons_append]
    by_cases h1 : c.name = "schema"
    · rcases hc : client.database_schema s with ⟨r, s1⟩
      cases r with
      | error e => simp [session_loop_schema_error client s s1 c _ e h1 hc] at h
      | ok db =>
        simp only [session_loop_schema_ok client s s1 c _ db h1 hc] at h ⊢
        rw [ih s1 rest h]
        simp [Run.after]
    · by_cases h2 : c.name = "rows"
      · cases ha : rows_arguments c with
        | error o =>
          simp only [session_loop_rows_arguments client s c _ o h2 ha] at h
          rcases rows_arguments_error c o ha with ho | ho <;> simp [ho] at h
        | ok args =>
          obtain ⟨table_name, first_key, last_key⟩ := args
          rcases hc : client.retrieve_rows s table_name first_key last_key with ⟨⟨rows, e⟩, s1⟩
          cases e with
          | some e =>
            simp [session_loop_rows_error client s s1 c _ table_name first_key last_key rows e
              h2 ha hc] at h
          | none =>
            simp only [session_loop_rows_ok client s s1 c _ table_name first_key last_key rows
              h2 ha hc] at h ⊢
            rw [ih s1 rest h]
            simp [Run.after]
      · by_cases h3 : c.name = "quit"
        · simp [session_loop_quit client s c _ h3] at h
        · simp [session_loop_unknown client s c _ h1 h2 h3] at h

/-- Whatever the loop does with a command, it first reads it. -/
theorem session_loop_reads_first {σ ρ : Type} (client : DatabaseClient σ ρ) (s : σ)
    (c : Command) (l : List Command) :
    ∃ t, (session_loop client s (c :: l)).trace = .read c :: t := by
  by_cases h1 : c.name = "schema"
  · rcases hc : client.database_schema s with ⟨r, s1⟩
    cases r with
    | error e => simp [session_loop_schema_error client s s1 c _ e h1 hc]
    | ok db => simp [session_loop_schema_ok client s s1 c _ db h1 hc, Run.after]
  · by_cases h2 : c.name = "rows"
    · cases ha : rows_arguments c with
      | error o => simp [session_loop_rows_arguments client s c _ o h2 ha]
      | ok args =>
        obtain ⟨table_name, first_key, last_key⟩ := args
        rcases hc : client.retrieve_rows s table_name first_key last_key with ⟨⟨rows, e⟩, s1⟩
        cases e with
        | some e =>
          simp [session_loop_rows_error client s s1 c _ table_name first_key last_key rows e
            h2 ha hc]
        | none =>
          simp [session_loop_rows_ok client s s1 c _ table_name first_key last_key rows
            h2 ha hc, Run.after]
    · by_cases h3 : c.name = "quit"
      · simp [session_loop_quit client s c _ h3]
      · simp [session_loop_unknown client s c _ h1 h2 h3]

/-- Between two commands the loop does nothing: its trace is empty when no command is left and
starts with the reading of the next command otherwise. -/
theorem session_loop_starts_reading {σ ρ : Type} (client : DatabaseClient σ ρ) (s : σ)
    (l : List Command) :
    (l = [] ∧ (session_loop client s l).trace = []) ∨
      ∃ c2 l2 t, l = c2 :: l2 ∧ (session_loop client s l).trace = .read c2 :: t := by
  cases l with
  | nil => exact Or.inl ⟨rfl, by simp [session_loop_nil]⟩
  | cons c2 l2 =>
    obtain ⟨t, ht⟩ := session_loop_reads_first client s c2 l2
    exact Or.inr ⟨c2, l2, t, rfl, ht⟩

/-- A loop that ends in a `command_error` ends at a command that is none of `schema`, `rows`,
`quit`, after serving the commands before it. -/
theorem session_loop_command_error {σ ρ : Type} (client : DatabaseClient σ ρ) :
    ∀ (cmds : List Command) (s : σ) (msg : String),
      (session_loop client s cmds).outcome = .command_error msg →
      ∃ pre c post, cmds = pre ++ c :: post ∧
        (session_loop client s pre).outcome = .input_exhausted ∧
        c.name ≠ "schema" ∧ c.name ≠ "rows" ∧ c.name ≠ "quit" ∧
        msg = "Unknown command " ++ c.name := by
  intro cmds
  induction cmds with
  | nil => intro s msg h; simp [session_loop_nil] at h
  | cons c l ih =>
    intro s msg h
    by_cases h1 : c.name = "schema"
    · rcases hc : client.database_schema s with ⟨r, s1⟩
      cases r with
      | error e => simp [session_loop_schema_error client s s1 c _ e h1 hc] at h
      | ok db =>
        simp only [session_loop_schema_ok client s s1 c _ db h1 hc, Run.after] at h
        obtain ⟨pre, c2, post, hl, hpre, hn⟩ := ih s1 msg h
        refine ⟨c :: pre, c2, post, by simp [hl], ?_, hn⟩
        simp [session_loop_schema_ok client s s1 c _ db h1 hc, Run.after, hpre]
    · by_cases h2 : c.name = "rows"
      · cases ha : rows_arguments c with
        | error o =>
          simp only [session_loop_rows_arguments client s c _ o h2 ha] at h
          rcases rows_arguments_error c o ha with ho | ho <;> simp [ho] at h
        | ok args =>
          obtain ⟨table_name, first_key, last_key⟩ := args
          rcases hc : client.retrieve_rows s table_name first_key last_key with
            ⟨⟨rows, e⟩, s1⟩
          cases e with
          | some e =>
            simp [session_loop_rows_error client s s1 c _ table_name first_key last_key rows e
              h2 ha hc] at h
          | none =>
            simp only [session_loop_rows_ok client s s1 c _ table_name first_key last_key rows
              h2 ha hc, Run.after] at h
            obtain ⟨pre, c2, post, hl, hpre, hn⟩ := ih s1 msg h
            refine ⟨c :: pre, c2, post, by simp [hl], ?_, hn⟩
            simp [session_loop_rows_ok client s s1 c _ table_name first_key last_key rows
              h2 ha hc, Run.after, hpre]
      · by_cases h3 : c.name = "quit"
        · simp [session_loop_quit client s c _ h3] at h
        · simp only [session_loop_unknown client s c _ h1 h2 h3] at h
          refine ⟨[], c, l, rfl, by simp [session_loop_nil], h1, h2, h3, ?_⟩
          simpa using h.symm

/-- The handshake of `sync_from` on a `protocol` command whose argument 0 converts to `v`. -/
theorem sync_from_handshake {σ ρ : Type} (client : DatabaseClient σ ρ) (s : σ)
    (command : Command) (rest : List Command) (v : Int)
    (hname : command.name = "protocol")
    (hv : (command.arguments.get? 0).bind Argument.as_int = some v) :
    sync_from client s (command :: rest) =
      Run.after [.read command, .write (.protocol_version (min 1 v)), .flush]
        (session_loop client s rest) := by
  rw [sync_from]
  cases h0 : command.arguments.get? 0 with
  | none => rw [h0, Option.none_bind] at hv; cases hv
  | some a0 =>
    rw [h0, Option.some_bind] at hv
    simp [hname, hv, PROTOCOL_VERSION_SUPPORTED]

/-- The three conversions of lines 42 to 44 succeed when each argument converts. -/
theorem rows_arguments_ok (c : Command) (table_name : String) (first_key last_key : RowValues)
    (h0 : (c.arguments.get? 0).bind Argument.as_string = some table_name)
    (h1 : (c.arguments.get? 1).bind Argument.as_row_values = some first_key)
    (h2 : (c.arguments.get? 2).bind Argument.as_row_values = some last_key) :
    rows_arguments c = .ok (table_name, first_key, last_key) := by
  unfold rows_arguments
  cases g0 : c.arguments.get? 0 with
  | none => rw [g0, Option.none_bind] at h0; cases h0
  | some a0 =>
    cases g1 : c.arguments.get? 1 with
    | none => rw [g1, Option.none_bind] at h1; cases h1
    | some a1 =>
      cases g2 : c.arguments.get? 2 with
      | none => rw [g2, Option.none_bind] at h2; cases h2
      | some a2 =>
        rw [g0, Option.some_bind] at h0
        rw [g1, Option.some_bind] at h1
        rw [g2, Option.some_bind] at h2
        simp [h0, h1, h2]

/-- C1: on a `protocol` command whose argument 0 is the integer `v`, `sync_from` writes
`min(1, v)` and flushes, and these are the only output events before the second command is
read: what follows is the loop, which does nothing before reading. -/
theorem sync_from_negotiates_min {σ ρ : Type} (client : DatabaseClient σ ρ) (s : σ)
    (command : Command) (rest : List Command) (v : Int)
    (hname : command.name = "protocol")
    (hv : (command.arguments.get? 0).bind Argument.as_int = some v) :
    sync_from client s (command :: rest) =
        Run.after [.read command, .write (.protocol_version (min 1 v)), .flush]
          (session_loop client s rest) ∧
      ((rest = [] ∧ (session_loop client s rest).trace = []) ∨
        ∃ c2 l2 t, rest = c2 :: l2 ∧ (session_loop client s rest).trace = .read c2 :: t) :=
  ⟨sync_from_handshake client s command rest v hname hv,
    session_loop_starts_reading client s rest⟩

/-- C2: a first command that is not named `protocol` ends the session with a `command_error`;
the only event is the reading of that command, so nothing is written and the client is not
called. -/
theorem sync_from_requires_handshake {σ ρ : Type} (client : DatabaseClient σ ρ) (s : σ)
    (command : Command) (rest : List Command) (hname : command.name ≠ "protocol") :
    sync_from client s (command :: rest) =
      ⟨[.read command],
        .command_error ("Expected a protocol command before " ++ command.name), s⟩ := by
  rw [sync_from]; simp [hname]

/-- C3: after the handshake and the served commands `pre`, a command that is none of
`schema`, `rows`, `quit` ends the session with a `command_error` right after it is read (no
later command is read, nothing is written for it); and a session that ends with a
`command_error` after the handshake ends at a command that is none of the three. -/
theorem sync_from_unknown_command {σ ρ : Type} (client : DatabaseClient σ ρ) (s : σ)
    (hs : Command) (v : Int) (pre : List Command) (command : Command) (rest : List Command)
    (hname : hs.name = "protocol")
    (hv : (hs.arguments.get? 0).bind Argument.as_int = some v)
    (hpre : (session_loop client s pre).outcome = .input_exhausted)
    (h1 : command.name ≠ "schema") (h2 : command.name ≠ "rows") (h3 : command.name ≠ "quit") :
    sync_from client s (hs :: (pre ++ command :: rest)) =
        ⟨[.read hs, .write (.protocol_version (min 1 v)), .flush]
            ++ (session_loop client s pre).trace ++ [.read command],
          .command_error ("Unknown command " ++ command.name),
          (session_loop client s pre).state⟩ ∧
      ∀ (cmds : List Command) (msg : String),
        (sync_from client s (hs :: cmds)).outcome = .command_error msg →
        ∃ served c later, cmds = served ++ c :: later ∧
          (session_loop client s served).outcome = .input_exhausted ∧
          c.name ≠ "schema" ∧ c.name ≠ "rows" ∧ c.name ≠ "quit" ∧
          msg = "Unknown command " ++ c.name := by
  constructor
  · rw [sync_from_handshake client s hs _ v hname hv, session_loop_append client pre s _ hpre,
      session_loop_unknown client _ command rest h1 h2 h3]
    simp [Run.after]
  · intro cmds msg h
    rw [sync_from_handshake client s hs _ v hname hv] at h
    exact session_loop_command_error client cmds s msg h

/-- C4: after the handshake and the served commands `pre`, a `quit` command makes `sync_from`
return; the run is the same whatever follows `quit` on the input: its last event is the
reading of `quit`, and the client is left in the state the served commands left it in. -/
theorem sync_from_quit {σ ρ : Type} (client : DatabaseClient σ ρ) (s : σ)
    (hs : Command) (v : Int) (pre : List Command) (command : Command) (rest : List Command)
    (hname : hs.name = "protocol")
    (hv : (hs.arguments.get? 0).bind Argument.as_int = some v)
    (hpre : (session_loop client s pre).outcome = .input_exhausted)
    (hquit : command.name = "quit") :
    sync_from client s (hs :: (pre ++ command :: rest)) =
      ⟨[.read hs, .write (.protocol_version (min 1 v)), .flush]
          ++ (session_loop client s pre).trace ++ [.read command],
        .returned, (session_loop client s pre).state⟩ := by
  rw [sync_from_handshake client s hs _ v hname hv, session_loop_append client pre s _ hpre,
    session_loop_quit client _ command rest hquit]
  simp [Run.after]

/-- C10: after the handshake and the served commands `pre`, a `schema` command whose client
call returns is answered by one write of the database followed by one flush, and a `rows`
command whose arguments 0, 1, 2 convert to table name, first key and last key and whose one
`retrieve_rows` call returns is answered by one write per row followed by one flush; no flush
stands between the rows, and after the flush the loop does nothing before it reads the next
command. -/
theorem sync_from_flushes_once_per_command {σ ρ : Type} (client : DatabaseClient σ ρ) (s : σ)
    (hs : Command) (v : Int) (pre : List Command) (command : Command) (rest : List Command)
    (hname : hs.name = "protocol")
    (hv : (hs.arguments.get? 0).bind Argument.as_int = some v)
    (hpre : (session_loop client s pre).outcome = .input_exhausted) :
    (∀ (db : Database) (s1 : σ), command.name = "schema" →
        client.database_schema (session_loop client s pre).state = (.ok db, s1) →
        sync_from client s (hs :: (pre ++ command :: rest)) =
          Run.after ([.read hs, .write (.protocol_version (min 1 v)), .flush]
              ++ (session_loop client s pre).trace
              ++ [.read command, .schema_call, .write (.database db), .flush])
            (session_loop client s1 rest)) ∧
      (∀ (table_name : String) (first_key last_key : RowValues) (rows : List ρ) (s1 : σ),
        command.name = "rows" →
        (command.arguments.get? 0).bind Argument.as_string = some table_name →
        (command.arguments.get? 1).bind Argument.as_row_values = some first_key →
        (command.arguments.get? 2).bind Argument.as_row_values = some last_key →
        client.retrieve_rows (session_loop client s pre).state table_name first_key last_key
          = ((rows, none), s1) →
        sync_from client s (hs :: (pre ++ command :: rest)) =
            Run.after ([.read hs, .write (.protocol_version (min 1 v)), .flush]
                ++ (session_loop client s pre).trace
                ++ [.read command, .rows_call table_name first_key last_key]
                ++ rows.map (fun r => .write (.row r)) ++ [.flush])
              (session_loop client s1 rest) ∧
          ∀ e ∈ rows.map (fun r => Event.write (Packed.row r)), e ≠ Event.flush) ∧
      ∀ s1 : σ, (rest = [] ∧ (session_loop client s1 rest).trace = []) ∨
        ∃ c2 l2 t, rest = c2 :: l2 ∧ (session_loop client s1 rest).trace = .read c2 :: t := by
  refine ⟨?_, ?_, fun s1 => session_loop_starts_reading client s1 rest⟩
  · intro db s1 hn hc
    rw [sync_from_handshake client s hs _ v hname hv, session_loop_append client pre s _ hpre,
      session_loop_schema_ok client _ s1 command rest db hn hc]
    simp [Run.after]
  · intro table_name first_key last_key rows s1 hn h0 h1 h2 hc
    constructor
    · rw [sync_from_handshake client s hs _ v hname hv,
        session_loop_append client pre s _ hpre,
        session_loop_rows_ok client _ s1 command rest table_name first_key last_key rows hn
          (rows_arguments_ok command table_name first_key last_key h0 h1 h2) hc]
      simp [Run.after]
    · intro e he
      simp only [List.mem_map] at he
      obtain ⟨r, _, rfl⟩ := he
      simp

/-- Witness of C1: the peer proposes version 5 and then quits; version 1 is written. -/
theorem sync_from_negotiates_min_witness :
    sync_from Samples.client 0 [Samples.protocol 5, Samples.quit] =
        Run.after [.read (Samples.protocol 5), .write (.protocol_version (min 1 5)), .flush]
          (session_loop Samples.client 0 [Samples.quit]) ∧
      (([Samples.quit] = [] ∧ (session_loop Samples.client 0 [Samples.quit]).trace = []) ∨
        ∃ c2 l2 t, [Samples.quit] = c2 :: l2 ∧
          (session_loop Samples.client 0 [Samples.quit]).trace = .read c2 :: t) :=
  sync_from_negotiates_min Samples.client 0 (Samples.protocol 5) [Samples.quit] 5
    (by decide) (by decide)

/-- Witness of C2: the peer starts with `rows`. -/
theorem sync_from_requires_handshake_witness :
    sync_from Samples.client 0 [Samples.rows, Samples.quit] =
      ⟨[.read Samples.rows],
        .command_error ("Expected a protocol command before " ++ Samples.rows.name), 0⟩ :=
  sync_from_requires_handshake Samples.client 0 Samples.rows [Samples.quit] (by decide)

/-- Witness of C3: after the handshake, a `schema` and a `rows` command, the peer repeats
`protocol`; the session ends there with a `command_error`. -/
theorem sync_from_unknown_command_witness :
    sync_from Samples.client 0
        [Samples.protocol 5, Samples.schema, Samples.rows, Samples.protocol 1, Samples.quit] =
      ⟨[.read (Samples.protocol 5), .write (.protocol_version 1), .flush,
          .read Samples.schema, .schema_call, .write (.database Samples.database), .flush,
          .read Samples.rows, .rows_call "users" [] [],
          .write (.row ["1", "ann"]), .write (.row ["2", "bob"]), .flush,
          .read (Samples.protocol 1)],
        .command_error "Unknown command protocol", 2⟩ :=
  (sync_from_unknown_command Samples.client 0 (Samples.protocol 5) 5
    [Samples.schema, Samples.rows] (Samples.protocol 1) [Samples.quit]
    (by decide) (by decide) (by decide) (by decide) (by decide) (by decide)).1

/-- Witness of C4: after the handshake, a `schema` and a `rows` command, the peer sends `quit`
followed by another `schema`; the run ends with the reading of `quit`. -/
theorem sync_from_quit_witness :
    sync_from Samples.client 0
        [Samples.protocol 5, Samples.schema, Samples.rows, Samples.quit, Samples.schema] =
      ⟨[.read (Samples.protocol 5), .write (.protocol_version 1), .flush,
          .read Samples.schema, .schema_call, .write (.database Samples.database), .flush,
          .read Samples.rows, .rows_call "users" [] [],
          .write (.row ["1", "ann"]), .write (.row ["2", "bob"]), .flush,
          .read Samples.quit],
        .returned, 2⟩ :=
  sync_from_quit Samples.client 0 (Samples.protocol 5) 5
    [Samples.schema, Samples.rows] Samples.quit [Samples.schema]
    (by decide) (by decide) (by decide) (by decide)

/-- Witness of C10: after the handshake and a served `schema` command, a `rows` command for
the two-row table is answered by two writes and one flush, then `quit` is read. -/
theorem sync_from_flushes_once_per_command_witness :
    sync_from Samples.client 0
        [Samples.protocol 5, Samples.schema, Samples.rows, Samples.quit] =
      Run.after [.read (Samples.protocol 5), .write (.protocol_version 1), .flush,
          .read Samples.schema, .schema_call, .write (.database Samples.database), .flush,
          .read Samples.rows, .rows_call "users" [] [],
          .write (.row ["1", "ann"]), .write (.row ["2", "bob"]), .flush]
        (session_loop Samples.client 2 [Samples.quit]) :=
  ((sync_from_flushes_once_per_command Samples.client 0 (Samples.protocol 5) 5
    [Samples.schema] Samples.rows [Samples.quit]
    (by decide) (by decide) (by decide)).2.1 "users" [] [] [["1", "ann"], ["2", "bob"]] 2
    (by decide) (by decide) (by decide) (by decide) (by decide)).1

/-! ## Properties of the MySQL client -/

namespace MySQL

theorem execute_actions {σ : Type} (lib : Library σ) (mysql : σ) (sql : String) :
    (execute lib mysql sql).actions = [.execute_call sql, .submitted "BEGIN"] := by
  unfold execute
  rcases h : lib.mysql_query mysql "BEGIN" with ⟨b, m1⟩
  cases b <;> simp

theorem execute_error {σ : Type} (lib : Library σ) (mysql : σ) (sql : String) :
    (execute lib mysql sql).error =
      if (lib.mysql_query mysql "BEGIN").1 = true
      then some (lib.mysql_error (lib.mysql_query mysql "BEGIN").2) else none := by
  unfold execute
  rcases h : lib.mysql_query mysql "BEGIN" with ⟨b, m1⟩
  cases b <;> simp

theorem start_statement_read_only (readonly : Bool) (server_version : Nat) :
    start_statement readonly server_version = "START TRANSACTION READ ONLY" ↔
      readonly = true ∧ 50605 ≤ server_version := by
  unfold start_statement MYSQL_5_6_5
  by_cases h : readonly = true ∧ 50605 ≤ server_version
  · simp [h]
  · have h2 : (readonly && decide (server_version ≥ 50605)) = false := by
      cases readonly <;> simp_all
    simp only [h2, h, iff_false]
    decide

/-- C5: `start_transaction` enters `execute` first with the isolation-level statement and,
when that call returns, a second time with `START TRANSACTION READ ONLY` exactly when
`readonly` is true and the server version is at least 50605, and with `START TRANSACTION` in
every other case. -/
theorem start_transaction_selects_statement {σ : Type} (lib : Library σ) (mysql : σ)
    (readonly : Bool) :
    (∀ server_version : Nat,
      (start_statement readonly server_version = "START TRANSACTION READ ONLY" ↔
        readonly = true ∧ 50605 ≤ server_version) ∧
      (start_statement readonly server_version = "START TRANSACTION" ↔
        ¬ (readonly = true ∧ 50605 ≤ server_version))) ∧
    execute_arguments (start_transaction lib mysql readonly).actions =
      "SET SESSION TRANSACTION ISOLATION LEVEL REPEATABLE READ" ::
        (if (execute lib mysql
              "SET SESSION TRANSACTION ISOLATION LEVEL REPEATABLE READ").error = none
         then [start_statement readonly (lib.mysql_get_server_version
                (execute lib mysql
                  "SET SESSION TRANSACTION ISOLATION LEVEL REPEATABLE READ").handle)]
         else []) := by
  constructor
  · intro server_version
    refine ⟨start_statement_read_only readonly server_version, ?_⟩
    rw [← start_statement_read_only readonly server_version]
    unfold start_statement
    split
    · simp
    · simp
  · unfold start_transaction
    cases h : (execute lib mysql
        "SET SESSION TRANSACTION ISOLATION LEVEL REPEATABLE READ").error with
    | none => simp [h, execute_actions, execute_arguments]
    | some e => simp [h, execute_actions, execute_arguments]

/-- C8, what the code does: whatever statement `execute` is given, the statement submitted to
the server is `BEGIN`, and a `runtime_error` is raised exactly when the server reports a
failure for `BEGIN`; for the isolation-level statement of `start_transaction` this is not the
supplied statement, and a construction submits `BEGIN` twice to a server that accepts
everything. -/
theorem execute_submits_begin {σ : Type} (lib : Library σ) (mysql : σ) (sql : String) :
    submitted_statements (execute lib mysql sql).actions = ["BEGIN"] ∧
    ((execute lib mysql sql).error ≠ none ↔ (lib.mysql_query mysql "BEGIN").1 = true) ∧
    submitted_statements (execute lib mysql
        "SET SESSION TRANSACTION ISOLATION LEVEL REPEATABLE READ").actions ≠
      ["SET SESSION TRANSACTION ISOLATION LEVEL REPEATABLE READ"] ∧
    (MySQLClient (Samples.mysql 50700) [] none (some "3306") none none none true).handle =
      ["BEGIN", "BEGIN"] := by
  refine ⟨?_, ?_, ?_, ?_⟩
  · simp [execute_actions, submitted_statements]
  · rw [execute_error]
    by_cases h : (lib.mysql_query mysql "BEGIN").1 = true <;> simp [h]
  · simp [execute_actions, submitted_statements]
  · decide

theorem not_isspace_of_is_digit (c : Char) (h : is_digit c = true) : isspace c = false := by
  unfold isspace
  simp only [Bool.or_eq_false_iff, decide_eq_false_iff_not]
  refine ⟨⟨⟨⟨⟨?_, ?_⟩, ?_⟩, ?_⟩, ?_⟩, ?_⟩ <;>
  · rintro rfl
    revert h
    decide

theorem not_sign_of_is_digit (c : Char) (h : is_digit c = true) : c ≠ '-' ∧ c ≠ '+' := by
  constructor <;>
  · rintro rfl
    revert h
    decide

theorem to_int32_of_small (n : Nat) (h : n < 2 ^ 31) : to_int32 (n : Int) = n := by
  unfold to_int32
  have h2 : (n : Int) < 2 ^ 31 := by exact_mod_cast h
  norm_num at h2 ⊢
  omega

theorem optional_sign_of_is_digit (c : Char) (t : List Char) (h : is_digit c = true) :
    optional_sign (c :: t) = (false, c :: t) := by
  have hs := not_sign_of_is_digit c h
  unfold optional_sign
  split
  · rename_i t2 heq
    exact absurd (List.cons.inj heq).1 hs.1
  · rename_i t2 heq
    exact absurd (List.cons.inj heq).1 hs.2
  · rfl

/-- On a purely numeric string below `2^31`, `atoi` is the number the digits write. -/
theorem atoi_of_digits (p : String) (hall : ∀ c ∈ p.toList, is_digit c = true)
    (hne : p.toList ≠ []) (hsmall : digits_value p.toList < 2 ^ 31) :
    atoi p = digits_value p.toList := by
  obtain ⟨c, t, hl⟩ := List.exists_cons_of_ne_nil hne
  have hc : is_digit c = true := hall c (by rw [hl]; exact List.mem_cons_self c t)
  have hdrop : p.toList.dropWhile isspace = c :: t := by
    rw [hl, List.dropWhile_cons_of_neg]
    simp [not_isspace_of_is_digit c hc]
  have htake : (c :: t).takeWhile is_digit = p.toList := by
    rw [← hl, List.takeWhile_eq_self_iff]
    exact hall
  have h63 : ((digits_value p.toList : Nat) : Int) ≤ 2 ^ 63 - 1 := by
    have : ((digits_value p.toList : Nat) : Int) < 2 ^ 31 := by exact_mod_cast hsmall
    norm_num at this ⊢
    omega
  unfold atoi
  simp only [hdrop, optional_sign_of_is_digit c t hc, htake, Bool.false_eq_true, if_false]
  rw [min_eq_right h63]
  exact to_int32_of_small _ hsmall

/-- C6, as the code has it: the port string is used as a TCP port (the port is `atoi` of the
string, the socket is null) exactly when its first character is a decimal digit; every other
string, the empty one included, is passed unchanged as the socket with port 0.  On a purely
numeric string below `2^31` the port is the number the string writes. -/
theorem port_and_socket_by_first_character (p : String) :
    port_and_socket (some p) =
        (if first_character_is_digit p = true then (atoi p, none) else (0, some p)) ∧
      ((∀ c ∈ p.toList, is_digit c = true) → p.toList ≠ [] →
        digits_value p.toList < 2 ^ 31 →
        port_and_socket (some p) = (((digits_value p.toList : Nat) : Int), none)) := by
  have h1 : port_and_socket (some p) =
      (if first_character_is_digit p = true then (atoi p, none) else (0, some p)) := by
    unfold port_and_socket first_character_is_digit
    cases hl : p.toList with
    | nil => simp only [hl, Bool.false_eq_true, if_false]
    | cons c t => simp only [hl]
  refine ⟨h1, ?_⟩
  intro hall hne hsmall
  obtain ⟨c, t, hl⟩ := List.exists_cons_of_ne_nil hne
  have hfirst : first_character_is_digit p = true := by
    unfold first_character_is_digit
    rw [hl]
    exact hall c (by rw [hl]; exact List.mem_cons_self c t)
  rw [h1, hfirst, if_pos rfl, atoi_of_digits p hall hne hsmall]

/-- Witness of the amended C6: the string `3306`. -/
theorem port_and_socket_by_first_character_witness :
    port_and_socket (some "3306") = (3306, none) :=
  (port_and_socket_by_first_character "3306").2 (by decide) (by decide) (by decide)

/-- C6 as stated fails: `3306abc` is not purely numeric, yet it is used as the TCP port 3306
with a null socket, and is not passed on as the socket. -/
theorem port_and_socket_not_purely_numeric :
    ¬ (∀ c ∈ "3306abc".toList, is_digit c = true) ∧
      port_and_socket (some "3306abc") = (3306, none) ∧
      port_and_socket (some "3306abc") ≠ (0, some "3306abc") := by
  decide

end MySQL

/-! ## Properties of the PostgreSQL client -/

namespace PostgreSQL

/-- The loop of `query` calls the handler on the rows from `row_number` up to the last. -/
theorem query_rows_eq {σ τ : Type}
    (row_handler : PostgreSQLRow → τ → σ → Except String (τ × σ)) (res : PostgreSQLRes) :
    ∀ (d row_number : Nat) (t : τ) (conn : σ), res.n_tuples - row_number = d →
      query_rows row_handler res row_number t conn =
        invoke_in_order row_handler res (List.range' row_number d) t conn := by
  intro d
  induction d with
  | zero =>
    intro k t conn h
    rw [query_rows]
    have hk : ¬ k < res.n_tuples := by omega
    simp [hk, invoke_in_order]
  | succ d ih =>
    intro k t conn h
    rw [query_rows]
    have hk : k < res.n_tuples := by omega
    simp only [hk, if_true, List.range'_succ, invoke_in_order]
    cases hh : row_handler ⟨res, k⟩ t conn with
    | error e => rfl
    | ok r =>
      obtain ⟨t1, conn1⟩ := r
      exact ih (k + 1) t1 conn1 (by omega)

/-- The method `query` either throws on the status of the result or calls the handler on the
rows of the result in order. -/
theorem query_eq {σ τ : Type} (pg : Connection σ) (sql : String)
    (row_handler : PostgreSQLRow → τ → σ → Except String (τ × σ)) (t : τ) (conn : σ) :
    query pg sql row_handler t conn =
      if PQresultStatus (pg.PQexecParams conn sql).1 = .PGRES_TUPLES_OK then
        invoke_in_order row_handler (PostgreSQLRes.make (pg.PQexecParams conn sql).1)
          (List.range (PQntuples (pg.PQexecParams conn sql).1)) t (pg.PQexecParams conn sql).2
      else
        .error (pg.PQerrorMessage (pg.PQexecParams conn sql).2) := by
  unfold query
  rcases h : pg.PQexecParams conn sql with ⟨r, conn1⟩
  by_cases hs : PQresultStatus r = .PGRES_TUPLES_OK
  · simp only [PostgreSQLRes.status, PostgreSQLRes.make, hs, ne_eq, not_true_eq_false,
      if_false, if_true]
    rw [query_rows_eq row_handler _ (PQntuples r) 0 t conn1 (by simp), List.range_eq_range']
  · simp [PostgreSQLRes.status, PostgreSQLRes.make, hs]

theorem invoke_record_row_number {σ : Type} (res : PostgreSQLRes) :
    ∀ (l noted : List Nat) (conn : σ),
      invoke_in_order record_row_number res l noted conn = .ok (noted ++ l, conn) := by
  intro l
  induction l with
  | nil => intro noted conn; simp [invoke_in_order]
  | cons i l ih =>
    intro noted conn
    simp [invoke_in_order, record_row_number, ih]

/-- C9: when the status of the result is `PGRES_TUPLES_OK`, `query` calls the row handler on
the rows 0, 1, ..., n-1 of the result in this order, once each (a handler that notes the row
numbers ends with exactly these numbers added to its notes); for any other status `query`
throws the error message of the connection, whatever the handler is. -/
theorem query_invokes_handler_per_row {σ τ : Type} (pg : Connection σ) (sql : String)
    (row_handler : PostgreSQLRow → τ → σ → Except String (τ × σ)) (t : τ) (conn : σ)
    (noted : List Nat) :
    query pg sql row_handler t conn =
        (if PQresultStatus (pg.PQexecParams conn sql).1 = .PGRES_TUPLES_OK then
          invoke_in_order row_handler (PostgreSQLRes.make (pg.PQexecParams conn sql).1)
            (List.range (PQntuples (pg.PQexecParams conn sql).1)) t
            (pg.PQexecParams conn sql).2
        else
          .error (pg.PQerrorMessage (pg.PQexecParams conn sql).2)) ∧
      query pg sql record_row_number noted conn =
        (if PQresultStatus (pg.PQexecParams conn sql).1 = .PGRES_TUPLES_OK then
          .ok (noted ++ List.range (PQntuples (pg.PQexecParams conn sql).1),
            (pg.PQexecParams conn sql).2)
        else
          .error (pg.PQerrorMessage (pg.PQexecParams conn sql).2)) := by
  refine ⟨query_eq pg sql row_handler t conn, ?_⟩
  rw [query_eq, invoke_record_row_number]

theorem invoke_column_lister {σ : Type} (res : PostgreSQLRes) :
    ∀ (l : List Nat) (table : Table) (conn : σ),
      invoke_in_order PostgreSQLColumnLister res l table conn =
        .ok ({ table with columns :=
                table.columns ++ l.map (fun i => Column.mk (PQgetvalue res.res i 0)) },
             conn) := by
  intro l
  induction l with
  | nil => intro table conn; simp [invoke_in_order]
  | cons i l ih =>
    intro table conn
    simp [invoke_in_order, PostgreSQLColumnLister, PostgreSQLRow.string_at, ih]

theorem invoke_key_lister {σ : Type} (res : PostgreSQLRes) :
    ∀ (l : List Nat) (table : Table) (conn : σ),
      invoke_in_order PostgreSQLKeyLister res l table conn =
        .ok ({ table with primary_key_columns :=
                table.primary_key_columns ++ l.map (fun i => PQgetvalue res.res i 0) },
             conn) := by
  intro l
  induction l with
  | nil => intro table conn; simp [invoke_in_order]
  | cons i l ih =>
    intro table conn
    simp [invoke_in_order, PostgreSQLKeyLister, PostgreSQLRow.string_at, ih]

/-- Reading field 0 of the rows 0, 1, ..., n-1 gives the first fields of the tuples. -/
theorem first_fields_of_rows (r : PGresult) :
    (List.range (PQntuples (some r))).map (fun i => PQgetvalue (some r) i 0) =
      r.tuples.map first_field := by
  apply List.ext_getElem
  · simp [PQntuples]
  · intro i h1 h2
    have hi : i < r.tuples.length := by simpa using h2
    simp [PQgetvalue, first_field, List.getElem?_eq_getElem hi]

theorem status_ok_some (r : Option PGresult) (h : PQresultStatus r = .PGRES_TUPLES_OK) :
    ∃ res, r = some res ∧ res.status = .PGRES_TUPLES_OK := by
  cases r with
  | none => simp [PQresultStatus] at h
  | some res => exact ⟨res, rfl, h⟩

theorem query_column_lister {σ : Type} (pg : Connection σ) (sql : String) (table : Table)
    (conn : σ) (table1 : Table) (conn1 : σ)
    (h : query pg sql PostgreSQLColumnLister table conn = .ok (table1, conn1)) :
    ∃ res, pg.PQexecParams conn sql = (some res, conn1) ∧ res.status = .PGRES_TUPLES_OK ∧
      table1 = { table with columns :=
        table.columns ++ res.tuples.map (fun tuple => Column.mk (first_field tuple)) } := by
  rw [query_eq] at h
  by_cases hs : PQresultStatus (pg.PQexecParams conn sql).1 = .PGRES_TUPLES_OK
  · obtain ⟨res, hr, hok⟩ := status_ok_some _ hs
    rw [if_pos hs, invoke_column_lister] at h
    injection h with h
    injection h with h1 h2
    refine ⟨res, ?_, hok, ?_⟩
    · rw [← h2, ← hr]
    · rw [← h1]
      simp only [PostgreSQLRes.make, hr]
      have := first_fields_of_rows res
      have h3 : (List.range (PQntuples (some res))).map
          (fun i => Column.mk (PQgetvalue (some res) i 0)) =
          res.tuples.map (fun tuple => Column.mk (first_field tuple)) := by
        have h4 := congrArg (List.map Column.mk) this
        simpa [List.map_map, Function.comp] using h4
      rw [h3]
  · rw [if_neg hs] at h
    cases h

theorem query_key_lister {σ : Type} (pg : Connection σ) (sql : String) (table : Table)
    (conn : σ) (table1 : Table) (conn1 : σ)
    (h : query pg sql PostgreSQLKeyLister table conn = .ok (table1, conn1)) :
    ∃ res, pg.PQexecParams conn sql = (some res, conn1) ∧ res.status = .PGRES_TUPLES_OK ∧
      table1 = { table with primary_key_columns :=
        table.primary_key_columns ++ res.tuples.map first_field } := by
  rw [query_eq] at h
  by_cases hs : PQresultStatus (pg.PQexecParams conn sql).1 = .PGRES_TUPLES_OK
  · obtain ⟨res, hr, hok⟩ := status_ok_some _ hs
    rw [if_pos hs, invoke_key_lister] at h
    injection h with h
    injection h with h1 h2
    refine ⟨res, ?_, hok, ?_⟩
    · rw [← h2, ← hr]
    · rw [← h1]
      simp only [PostgreSQLRes.make, hr]
      rw [first_fields_of_rows res]
  · rw [if_neg hs] at h
    cases h

/-- One call of the table lister that returns has added one table at the end of the database,
and this table is what the server returned for the name in field 0 of the row. -/
theorem table_lister_step {σ : Type} (pg : Connection σ) (row : PostgreSQLRow)
    (schema : Schema) (conn : σ) (schema1 : Schema) (conn1 : σ)
    (h : PostgreSQLTableLister pg row schema conn = .ok (schema1, conn1)) :
    ∃ table, schema1.database.tables = schema.database.tables ++ [table] ∧
      table_from pg conn (row.string_at 0) table conn1 := by
  unfold PostgreSQLTableLister at h
  simp only at h
  cases hc : query pg (columns_sql (row.string_at 0)) PostgreSQLColumnLister
      { name := row.string_at 0 } conn with
  | error e => simp [hc] at h
  | ok r1 =>
    obtain ⟨table1, conn_b⟩ := r1
    simp only [hc] at h
    cases hk : query pg (key_sql (row.string_at 0)) PostgreSQLKeyLister table1 conn_b with
    | error e => simp [hk] at h
    | ok r2 =>
      obtain ⟨table2, conn_c⟩ := r2
      simp only [hk] at h
      injection h with h
      injection h with h1 h2
      obtain ⟨cres, hce, hcs, hct⟩ := query_column_lister pg _ _ _ _ _ hc
      obtain ⟨kres, hke, hks, hkt⟩ := query_key_lister pg _ _ _ _ _ hk
      refine ⟨table2, by rw [← h1], cres, conn_b, kres, hce, hcs, ?_, hks, ?_, ?_, ?_⟩
      · rw [← h2]; exact hke
      · rw [hkt, hct]
      · rw [hkt, hct]; simp
      · rw [hkt, hct]; simp

/-- Calls of the table lister on the rows of a list, when they all return, add one table per
row at the end of the database, in the order of the rows. -/
theorem invoke_table_lister {σ : Type} (pg : Connection σ) (res : PostgreSQLRes) :
    ∀ (l : List Nat) (schema : Schema) (conn : σ) (schema1 : Schema) (conn1 : σ),
      invoke_in_order (PostgreSQLTableLister pg) res l schema conn = .ok (schema1, conn1) →
      ∃ added, schema1.database.tables = schema.database.tables ++ added ∧
        tables_from pg conn (l.map (fun i => PQgetvalue res.res i 0)) added conn1 := by
  intro l
  induction l with
  | nil =>
    intro schema conn schema1 conn1 h
    simp only [invoke_in_order] at h
    injection h with h
    injection h with h1 h2
    exact ⟨[], by simp [h1], by simp [tables_from, h2]⟩
  | cons i l ih =>
    intro schema conn schema1 conn1 h
    simp only [invoke_in_order] at h
    cases hstep : PostgreSQLTableLister pg ⟨res, i⟩ schema conn with
    | error e => simp [hstep] at h
    | ok r =>
      obtain ⟨schema2, conn2⟩ := r
      simp only [hstep] at h
      obtain ⟨table, ht, hret⟩ := table_lister_step pg _ _ _ _ _ hstep
      obtain ⟨added, ha, hall⟩ := ih schema2 conn2 schema1 conn1 h
      refine ⟨table :: added, ?_, ?_⟩
      · rw [ha, ht]; simp
      · simp only [List.map_cons, tables_from]
        exact ⟨conn2, hret, hall⟩

/-- Tables returned in sequence are returned one for one. -/
theorem tables_from_one_for_one {σ : Type} (pg : Connection σ) :
    ∀ (names : List String) (tables : List Table) (conn conn1 : σ),
      tables_from pg conn names tables conn1 →
      List.Forall₂ (fun name table => table_as_returned pg name table) names tables := by
  intro names
  induction names with
  | nil =>
    intro tables conn conn1 h
    cases tables with
    | nil => exact List.Forall₂.nil
    | cons t ts => simp [tables_from] at h
  | cons name names ih =>
    intro tables conn conn1 h
    cases tables with
    | nil => simp [tables_from] at h
    | cons t ts =>
      simp only [tables_from] at h
      obtain ⟨conn_c, h1, h2⟩ := h
      exact List.Forall₂.cons ⟨conn, conn_c, h1⟩ (ih ts conn_c conn1 h2)

theorem invoke_in_order_returns {σ τ : Type}
    (row_handler : PostgreSQLRow → τ → σ → Except String (τ × σ)) (res : PostgreSQLRes)
    (hh : ∀ row t conn, ∃ r, row_handler row t conn = .ok r) :
    ∀ (l : List Nat) (t : τ) (conn : σ),
      ∃ r, invoke_in_order row_handler res l t conn = .ok r := by
  intro l
  induction l with
  | nil => intro t conn; exact ⟨(t, conn), rfl⟩
  | cons i l ih =>
    intro t conn
    obtain ⟨⟨t1, conn1⟩, h1⟩ := hh ⟨res, i⟩ t conn
    obtain ⟨r, hr⟩ := ih t1 conn1
    exact ⟨r, by simp only [invoke_in_order, h1, hr]⟩

theorem table_lister_returns {σ : Type} (pg : Connection σ)
    (hall : ∀ conn sql, PQresultStatus (pg.PQexecParams conn sql).1 = .PGRES_TUPLES_OK)
    (row : PostgreSQLRow) (schema : Schema) (conn : σ) :
    ∃ r, PostgreSQLTableLister pg row schema conn = .ok r := by
  unfold PostgreSQLTableLister
  simp only [query_eq, hall, if_true, invoke_column_lister, invoke_key_lister]
  exact ⟨_, rfl⟩

/-- C7: when `populate_database_schema`, called on a client without tables, returns, the
table statement had a `PGRES_TUPLES_OK` result and the tables of the database correspond one
to one, in order, to the tuples of that result (none left out, none merged, none moved): each
table has the name in the first field of its tuple, the columns its column statement returned
and the key columns its key statement returned, both in the order returned, the statements
sent one after the other on the same connection.  And the method does return when the server
answers every statement with `PGRES_TUPLES_OK`. -/
theorem populate_database_schema_tables {σ : Type} (pg : Connection σ) (conn : σ) :
    (∀ (schema1 : Schema) (conn1 : σ),
      populate_database_schema pg Schema.empty conn = .ok (schema1, conn1) →
      ∃ (res : PGresult) (conn0 : σ),
        pg.PQexecParams conn tables_sql = (some res, conn0) ∧
        res.status = .PGRES_TUPLES_OK ∧
        tables_from pg conn0 (res.tuples.map first_field) schema1.database.tables conn1 ∧
        List.Forall₂ (fun tuple table => table_as_returned pg (first_field tuple) table)
          res.tuples schema1.database.tables) ∧
    ((∀ c sql, PQresultStatus (pg.PQexecParams c sql).1 = .PGRES_TUPLES_OK) →
      ∃ r, populate_database_schema pg Schema.empty conn = .ok r) := by
  constructor
  · intro schema1 conn1 h
    unfold populate_database_schema at h
    rw [query_eq] at h
    by_cases hs : PQresultStatus (pg.PQexecParams conn tables_sql).1 = .PGRES_TUPLES_OK
    · obtain ⟨res, hr, hok⟩ := status_ok_some _ hs
      rw [if_pos hs] at h
      obtain ⟨added, ha, hall⟩ := invoke_table_lister pg _ _ _ _ _ _ h
      have ht : schema1.database.tables = added := by
        rw [ha]; simp [Schema.empty]
      simp only [PostgreSQLRes.make, hr] at hall
      rw [first_fields_of_rows res] at hall
      refine ⟨res, (pg.PQexecParams conn tables_sql).2, ?_, hok, ?_, ?_⟩
      · rw [← hr]
      · rw [ht]; exact hall
      · rw [ht]
        exact List.forall₂_map_left_iff.mp (tables_from_one_for_one pg _ _ _ _ hall)
    · rw [if_neg hs] at h
      cases h
  · intro hall
    unfold populate_database_schema
    rw [query_eq, if_pos (hall _ _)]
    exact invoke_in_order_returns _ _ (table_lister_returns pg hall) _ _ _

set_option maxRecDepth 100000 in
/-- The run of `populate_database_schema` against the sample server: three tables in catalog
order, the repeated one kept twice, after seven statements. -/
theorem populate_database_schema_sample :
    populate_database_schema Samples.postgresql Schema.empty 0 =
      .ok ({ database := { tables := [
               { name := "users", columns := [⟨"id"⟩, ⟨"name"⟩],
                 primary_key_columns := ["id"] },
               { name := "orders", columns := [⟨"user_id"⟩, ⟨"item"⟩, ⟨"price"⟩],
                 primary_key_columns := ["user_id", "item"] },
               { name := "users", columns := [⟨"id"⟩, ⟨"name"⟩],
                 primary_key_columns := ["id"] }] },
             table_key_columns :=
               ((Schema.empty.table_key_columns.assign "users" ["id"]).assign
                 "orders" ["user_id", "item"]).assign "users" ["id"] }, 7) := by
  have h : PostgreSQLTableLister Samples.postgresql =
      fun row schema conn => PostgreSQLTableLister Samples.postgresql row schema conn := rfl
  rw [populate_database_schema, query_eq, h]
  simp only [PostgreSQLTableLister, query_eq]
  rfl

/-- Witness of C7: against the sample server the three tables of the database stand in
catalog order against the three tuples of the table statement. -/
theorem populate_database_schema_tables_witness :
    ∃ (res : PGresult) (conn0 : Nat),
      Samples.postgresql.PQexecParams 0 tables_sql = (some res, conn0) ∧
      res.status = .PGRES_TUPLES_OK ∧
      tables_from Samples.postgresql conn0 (res.tuples.map first_field)
        [{ name := "users", columns := [⟨"id"⟩, ⟨"name"⟩], primary_key_columns := ["id"] },
         { name := "orders", columns := [⟨"user_id"⟩, ⟨"item"⟩, ⟨"price"⟩],
           primary_key_columns := ["user_id", "item"] },
         { name := "users", columns := [⟨"id"⟩, ⟨"name"⟩], primary_key_columns := ["id"] }]
        7 ∧
      List.Forall₂
        (fun tuple table => table_as_returned Samples.postgresql (first_field tuple) table)
        res.tuples
        [{ name := "users", columns := [⟨"id"⟩, ⟨"name"⟩], primary_key_columns := ["id"] },
         { name := "orders", columns := [⟨"user_id"⟩, ⟨"item"⟩, ⟨"price"⟩],
           primary_key_columns := ["user_id", "item"] },
         { name := "users", columns := [⟨"id"⟩, ⟨"name"⟩], primary_key_columns := ["id"] }] :=
  (populate_database_schema_tables Samples.postgresql 0).1 _ _ populate_database_schema_sample

end PostgreSQL

end KitchenSync
